import Mathlib

/-!
Verification of the framed request/response protocol layer of
`src/python/busadapter.py` (host-side driver for a USB-attached
I2C bus adapter).

The byte-stream serial channel is modelled as a function from the index of
the read attempt to the bytes the channel offers on that attempt; a read of
`n` bytes takes at most `n` of the offered bytes, and an empty offer models
a read timeout (the serial `read(n)` contract: up to `n` bytes, zero-length
on timeout).  Python exceptions are modelled by an explicit error type and
`Except`; each high-level operation also records the byte frames it wrote
to the channel, so that "fails before any I/O" is expressible.
-/

/-- One byte on the wire. -/
abbrev Byte := Fin 256

-- Command codes (module-level constants of the source).
def CMD_VERSION : Byte := 0
def CMD_INIT : Byte := 1
def CMD_GET_BUS_TYPE : Byte := 2
def CMD_WRITE : Byte := 3
def CMD_READ : Byte := 4
def CMD_TRANSACTION : Byte := 5
def CMD_SET_PIN_MODE : Byte := 7
def CMD_DIGITAL_WRITE : Byte := 8

def MODE_I2C_MASTER : Byte := 1

-- Response status codes.
def RESPONSE_OK : Byte := 0
def RESPONSE_ERROR : Byte := 1
def RESPONSE_CMD_UNAVAILABLE : Byte := 2
def RESPONSE_WRONG_COMMAND : Byte := 3
def RESPONSE_BAD_PARAMETERS : Byte := 4
def RESPONSE_SHORT_WRITE : Byte := 5
def RESPONSE_NACK_ON_ADDRESS : Byte := 6
def RESPONSE_NACK_ON_DATA : Byte := 7
def RESPONSE_DATA_TOO_LONG : Byte := 8
def RESPONSE_OTHER_ERROR : Byte := 9

def PIN_MODE_DIGITAL_OUT : Byte := 0x01
def PIN_STATUS_HIGH : Byte := 0x10
def PIN_STATUS_LOW : Byte := 0x11
def PIN_STATUS_TOGGLE : Byte := 0x12

/-- The exceptions the source can raise.  `timeout`, `busError`,
`protocolError` are the classes defined in the source; `valueError` is
Python's `ValueError`, `keyError` Python's `KeyError` (raised by the
message-table lookup in `BusError.__init__` on an unmapped integer
status), `indexError` Python's `IndexError` (`response[0]` on an empty
response), `structError` a `struct.error` from `pack('B', x)` with `x`
out of byte range, and `assertionError` a failed `assert` carrying the
asserted status code. -/
inductive AdapterError : Type where
  | timeout : AdapterError
  | busError (msg : String) : AdapterError
  | protocolError : AdapterError
  | valueError (msg : String) : AdapterError
  | keyError (code : Byte) : AdapterError
  | indexError : AdapterError
  | structError : AdapterError
  | assertionError (code : Byte) : AdapterError
  deriving DecidableEq, Repr

/-- `BusError.__init__` applied to an integer message: looks the status
code up in the fixed status-to-message table; an unmapped code raises
`KeyError`. -/
def busErrorOfCode (code : Byte) : AdapterError :=
  if code = RESPONSE_SHORT_WRITE then .busError "short write"
  else if code = RESPONSE_NACK_ON_ADDRESS then .busError "nack on address"
  else if code = RESPONSE_NACK_ON_DATA then .busError "nack on data"
  else if code = RESPONSE_DATA_TOO_LONG then .busError "data too long for transmit buffer"
  else if code = RESPONSE_OTHER_ERROR then .busError "other error"
  else .keyError code

/-- The serial channel: attempt `i` of `sp.read` offers `c i` bytes
(before truncation to the requested count).  An empty offer models a
read timeout. -/
def Chan : Type := Nat → List Byte

/-- `sp.read(n)` on read attempt `idx`: up to `n` bytes. -/
def readBlock (c : Chan) (idx : Nat) (n : Nat) : List Byte :=
  (c idx).take n

/-- `BusAdapter._send`: `pack('BB', len(data) + 1, cmd_code) + data`.
Returns the frame written to the channel; `pack('B', x)` demands
`x ≤ 255`, so a payload longer than 254 bytes raises `struct.error`. -/
def sendFrame (cmd_code : Byte) (data : List Byte) : Except AdapterError (List Byte) :=
  if h : data.length + 1 ≤ 255 then
    .ok (⟨data.length + 1, by omega⟩ :: cmd_code :: data)
  else .error .structError

/-- The body-accumulation loop of `BusAdapter._recv`: `expected` is the
length byte (`response_size[0]`), `idx` the index of the next read
attempt, `acc` the bytes accumulated so far (`response`), `btr` the
bytes still to read (`bytes_to_read`). -/
def recvLoop (c : Chan) (expected : Nat) (idx : Nat) (acc : List Byte) (btr : Nat) :
    Except AdapterError (List Byte) :=
  if btr = 0 then .ok acc
  else if hblock : readBlock c idx btr = [] then
    .error (.busError ("short response; got " ++ toString acc.length ++
      " bytes, expected " ++ toString expected))
  else
    recvLoop c expected (idx + 1) (acc ++ readBlock c idx btr)
      (btr - (readBlock c idx btr).length)
termination_by btr
decreasing_by
  have h1 : (readBlock c idx btr).length ≤ btr := by
    rw [readBlock, List.length_take]
    exact Nat.min_le_left _ _
  have h2 : 0 < (readBlock c idx btr).length := List.length_pos.mpr hblock
  omega

/-- `BusAdapter._recv`: read one length byte (timeout if the channel
offers nothing), then accumulate that many body bytes and split them
into the status byte and the payload. -/
def recv (c : Chan) : Except AdapterError (Byte × List Byte) :=
  match readBlock c 0 1 with
  | [] => .error .timeout
  | response_size :: _ =>
    match recvLoop c response_size.val 1 [] response_size.val with
    | .error e => .error e
    | .ok [] => .error .indexError
    | .ok (s :: rest) => .ok (s, rest)

instance {e a : Type} [DecidableEq e] [DecidableEq a] : DecidableEq (Except e a) := fun x y =>
  match x, y with
  | .ok v, .ok w =>
    if h : v = w then isTrue (by rw [h]) else isFalse (fun hh => h (Except.ok.inj hh))
  | .error v, .error w =>
    if h : v = w then isTrue (by rw [h]) else isFalse (fun hh => h (Except.error.inj hh))
  | .ok _, .error _ => isFalse (fun hh => nomatch hh)
  | .error _, .ok _ => isFalse (fun hh => nomatch hh)

/-- The observable effect of one high-level operation: the list of frames
written to the channel, and the returned value or raised exception. -/
structure OpResult (α : Type) where
  writes : List (List Byte)
  result : Except AdapterError α
  deriving DecidableEq

namespace BusAdapterI2CMaster

/-- `BusAdapterI2CMaster.write(address, payload)`. -/
def write (c : Chan) (address : Byte) (payload : List Byte) : OpResult Unit :=
  match sendFrame CMD_WRITE (address :: payload) with
  | .error e => ⟨[], .error e⟩
  | .ok frame =>
    ⟨[frame],
      match recv c with
      | .error e => .error e
      | .ok (msg_code, response) =>
        if response.length ≠ 0 ∨ msg_code = RESPONSE_BAD_PARAMETERS then
          .error .protocolError
        else if msg_code ≠ RESPONSE_OK then .error (busErrorOfCode msg_code)
        else .ok ()⟩

/-- `BusAdapterI2CMaster.read(address, read_size)`. -/
def read (c : Chan) (address : Byte) (read_size : Byte) : OpResult (List Byte) :=
  match sendFrame CMD_READ [address, read_size] with
  | .error e => ⟨[], .error e⟩
  | .ok frame =>
    ⟨[frame],
      match recv c with
      | .error e => .error e
      | .ok (msg_code, response) =>
        if msg_code = RESPONSE_BAD_PARAMETERS then .error .protocolError
        else if msg_code ≠ RESPONSE_OK then .error (busErrorOfCode msg_code)
        else if response.length ≠ read_size.val then .error (.busError "short read")
        else .ok response⟩

/-- `BusAdapterI2CMaster.transaction(address, payload, read_size)`. -/
def transaction (c : Chan) (address : Byte) (payload : List Byte) (read_size : Byte) :
    OpResult (List Byte) :=
  if payload.length < 1 then
    ⟨[], .error (.valueError "at least one byte of payload is required")⟩
  else
    match sendFrame CMD_TRANSACTION (address :: read_size :: payload) with
    | .error e => ⟨[], .error e⟩
    | .ok frame =>
      ⟨[frame],
        match recv c with
        | .error e => .error e
        | .ok (msg_code, response) =>
          if msg_code = RESPONSE_BAD_PARAMETERS then .error .protocolError
          else if msg_code ≠ RESPONSE_OK then .error (busErrorOfCode msg_code)
          else if response.length ≠ read_size.val then
            .error (.busError ("short read; got " ++ toString response.length ++
              " bytes, expected " ++ toString read_size.val))
          else .ok response⟩

/-- The init exchange of `BusAdapterI2CMaster.__init__`:
`pack('<BBH', MODE_I2C_MASTER, 0, 400)` is the four bytes
`[1, 0, 0x90, 0x01]` (400 = 0x0190 little-endian), and the response is
checked with `if msg_code != RESPONSE_OK and payload != b''` — exactly
the connective the source uses. -/
def init (c : Chan) : OpResult Unit :=
  match sendFrame CMD_INIT [ MODE_I2C_MASTER, 0, 0x90, 0x01] with
  | .error e => ⟨[], .error e⟩
  | .ok frame =>
    ⟨[frame],
      match recv c with
      | .error e => .error e
      | .ok (msg_code, payload) =>
        if msg_code ≠ RESPONSE_OK ∧ payload ≠ [] then .error .protocolError
        else .ok ()⟩

end BusAdapterI2CMaster

/-- A Python value of the kinds `digital_write` may receive as `status`:
a string, a boolean, or an integer. -/
inductive PyVal : Type where
  | str (s : String) : PyVal
  | bool (b : Bool) : PyVal
  | int (n : Int) : PyVal
  deriving DecidableEq, Repr

/-- Python `==` on such values: `True == 1` and `False == 0`, so a
boolean dict key is also found by the equal integer. -/
def pyEq : PyVal → PyVal → Bool
  | .str a, .str b => a == b
  | .bool a, .bool b => a == b
  | .int a, .int b => a == b
  | .bool a, .int b => (if a then (1 : Int) else 0) == b
  | .int a, .bool b => a == (if b then (1 : Int) else 0)
  | _, _ => false

/-- Python `repr` of such a value (used in the `ValueError` message). -/
def pyRepr : PyVal → String
  | .str s => "'" ++ s ++ "'"
  | .bool true => "True"
  | .bool false => "False"
  | .int n => toString n

/-- The status-resolution dict of `BusAdapter.digital_write`, in source
order.  Note: it has no entry for the raw code `PIN_STATUS_TOGGLE`. -/
def PIN_STATUS_TABLE : List (PyVal × Byte) :=
  [(.str "high", PIN_STATUS_HIGH),
   (.str "low", PIN_STATUS_LOW),
   (.bool true, PIN_STATUS_HIGH),
   (.bool false, PIN_STATUS_LOW),
   (.int 16, PIN_STATUS_HIGH),
   (.int 17, PIN_STATUS_LOW),
   (.str "toggle", PIN_STATUS_TOGGLE)]

/-- Python dict lookup `d[k]` over the table, with Python key equality;
`none` models the raised `KeyError`. -/
def pyLookup (tbl : List (PyVal × Byte)) (k : PyVal) : Option Byte :=
  match tbl.find? (fun p => pyEq p.1 k) with
  | some p => some p.2
  | none => none

/-- `BusAdapter.digital_write(pin_number, status)`. -/
def digital_write (c : Chan) (pin_number : Byte) (status : PyVal) : OpResult Unit :=
  match pyLookup PIN_STATUS_TABLE status with
  | none => ⟨[], .error (.valueError ("wrong pin status " ++ pyRepr status))⟩
  | some code =>
    match sendFrame CMD_DIGITAL_WRITE [pin_number, code] with
    | .error e => ⟨[], .error e⟩
    | .ok frame =>
      ⟨[frame],
        match recv c with
        | .error e => .error e
        | .ok (resp_code, _) =>
          if resp_code = RESPONSE_OK then .ok () else .error (.assertionError resp_code)⟩

/-- The set of caller-supplied status values the `digital_write` dict
actually resolves (the integers 1 and 0 resolve through Python equality
with the boolean keys; the raw toggle code 0x12 = 18 is absent). -/
def acceptedPinStatus : List PyVal :=
  [.str "high", .str "low", .str "toggle", .bool true, .bool false,
   .int 16, .int 17, .int 1, .int 0]

/-- A channel carrying exactly the byte sequence `bs`: the first read
attempt (the length read) gets the first byte, every later attempt is
offered the whole remainder. -/
def chanServe (bs : List Byte) : Chan :=
  fun i => if i = 0 then bs.take 1 else bs.drop 1

/-- A channel that never delivers any byte. -/
def emptyChan : Chan := fun _ => []

/-- A concrete channel that delivers length byte 5, then 2 body bytes,
then starves. -/
def starveChan : Chan :=
  fun i => if i = 0 then [5] else if i = 1 then [0xAB, 0xCD] else []

/-- Observer of the channel, mirroring the accumulation loop: the number
of body bytes the channel actually delivers before the loop either
completes or hits an empty read, starting at read attempt `idx` with
`btr` bytes still wanted. -/
def deliveredBytes (c : Chan) (idx : Nat) (btr : Nat) : Nat :=
  if btr = 0 then 0
  else if hblock : readBlock c idx btr = [] then 0
  else (readBlock c idx btr).length +
    deliveredBytes c (idx + 1) (btr - (readBlock c idx btr).length)
termination_by btr
decreasing_by
  have h1 : (readBlock c idx btr).length ≤ btr := by
    rw [readBlock, List.length_take]
    exact Nat.min_le_left _ _
  have h2 : 0 < (readBlock c idx btr).length := List.length_pos.mpr hblock
  omega

/-- Observer of the channel, mirroring the accumulation loop: the number
of read attempts the loop performs. -/
def readAttempts (c : Chan) (idx : Nat) (btr : Nat) : Nat :=
  if btr = 0 then 0
  else if hblock : readBlock c idx btr = [] then 1
  else 1 + readAttempts c (idx + 1) (btr - (readBlock c idx btr).length)
termination_by btr
decreasing_by
  have h1 : (readBlock c idx btr).length ≤ btr := by
    rw [readBlock, List.length_take]
    exact Nat.min_le_left _ _
  have h2 : 0 < (readBlock c idx btr).length := List.length_pos.mpr hblock
  omega

theorem recvLoop_unfold (c : Chan) (expected idx : Nat) (acc : List Byte) (btr : Nat) :
    recvLoop c expected idx acc btr =
      if btr = 0 then .ok acc
      else if readBlock c idx btr = [] then
        .error (.busError ("short response; got " ++ toString acc.length ++
          " bytes, expected " ++ toString expected))
      else
        recvLoop c expected (idx + 1) (acc ++ readBlock c idx btr)
          (btr - (readBlock c idx btr).length) := by
  rw [recvLoop.eq_def]
  by_cases h0 : btr = 0
  · simp [h0]
  · by_cases hb : readBlock c idx btr = [] <;> simp [h0, hb]

theorem deliveredBytes_unfold (c : Chan) (idx btr : Nat) :
    deliveredBytes c idx btr =
      if btr = 0 then 0
      else if readBlock c idx btr = [] then 0
      else (readBlock c idx btr).length +
        deliveredBytes c (idx + 1) (btr - (readBlock c idx btr).length) := by
  rw [deliveredBytes.eq_def]
  by_cases h0 : btr = 0
  · simp [h0]
  · by_cases hb : readBlock c idx btr = [] <;> simp [h0, hb]

theorem readAttempts_unfold (c : Chan) (idx btr : Nat) :
    readAttempts c idx btr =
      if btr = 0 then 0
      else if readBlock c idx btr = [] then 1
      else 1 + readAttempts c (idx + 1) (btr - (readBlock c idx btr).length) := by
  rw [readAttempts.eq_def]
  by_cases h0 : btr = 0
  · simp [h0]
  · by_cases hb : readBlock c idx btr = [] <;> simp [h0, hb]

theorem readBlock_length_le (c : Chan) (idx n : Nat) : (readBlock c idx n).length ≤ n := by
  rw [readBlock, List.length_take]
  exact Nat.min_le_left _ _

theorem recvLoop_ok_length (c : Chan) (expected : Nat) :
    ∀ (btr idx : Nat) (acc l : List Byte),
      recvLoop c expected idx acc btr = .ok l → l.length = acc.length + btr := by
  intro btr
  induction btr using Nat.strong_induction_on with
  | _ btr ih =>
    intro idx acc l h
    rw [recvLoop_unfold] at h
    by_cases h0 : btr = 0
    · rw [if_pos h0] at h
      injection h with h
      subst h
      omega
    · rw [if_neg h0] at h
      by_cases hb : readBlock c idx btr = []
      · rw [if_pos hb] at h
        exact absurd h (by simp)
      · rw [if_neg hb] at h
        have hlen : (readBlock c idx btr).length ≤ btr := readBlock_length_le c idx btr
        have hpos : 0 < (readBlock c idx btr).length := List.length_pos.mpr hb
        have hrec := ih _ (by omega) _ _ _ h
        rw [List.length_append] at hrec
        omega

theorem recvLoop_starve (c : Chan) (expected : Nat) :
    ∀ (btr idx : Nat) (acc : List Byte),
      deliveredBytes c idx btr < btr →
      recvLoop c expected idx acc btr =
        .error (.busError ("short response; got " ++
          toString (acc.length + deliveredBytes c idx btr) ++
          " bytes, expected " ++ toString expected)) := by
  intro btr
  induction btr using Nat.strong_induction_on with
  | _ btr ih =>
    intro idx acc hst
    by_cases h0 : btr = 0
    · rw [deliveredBytes_unfold, if_pos h0] at hst
      omega
    · by_cases hb : readBlock c idx btr = []
      · have hd : deliveredBytes c idx btr = 0 := by
          rw [deliveredBytes_unfold, if_neg h0, if_pos hb]
        rw [hd, recvLoop_unfold, if_neg h0, if_pos hb]
        simp
      · have hd : deliveredBytes c idx btr = (readBlock c idx btr).length +
            deliveredBytes c (idx + 1) (btr - (readBlock c idx btr).length) := by
          rw [deliveredBytes_unfold, if_neg h0, if_neg hb]
        have hlen : (readBlock c idx btr).length ≤ btr := readBlock_length_le c idx btr
        have hpos : 0 < (readBlock c idx btr).length := List.length_pos.mpr hb
        have hst2 : deliveredBytes c (idx + 1) (btr - (readBlock c idx btr).length) <
            btr - (readBlock c idx btr).length := by
          rw [hd] at hst
          omega
        rw [recvLoop_unfold, if_neg h0, if_neg hb, ih _ (by omega) _ _ hst2, hd,
          List.length_append]
        have heq : acc.length + (readBlock c idx btr).length +
            deliveredBytes c (idx + 1) (btr - (readBlock c idx btr).length) =
            acc.length + ((readBlock c idx btr).length +
              deliveredBytes c (idx + 1) (btr - (readBlock c idx btr).length)) := by omega
        rw [heq]

theorem readAttempts_le (c : Chan) :
    ∀ (btr idx : Nat), readAttempts c idx btr ≤ btr := by
  intro btr
  induction btr using Nat.strong_induction_on with
  | _ btr ih =>
    intro idx
    rw [readAttempts_unfold]
    by_cases h0 : btr = 0
    · simp [h0]
    · rw [if_neg h0]
      by_cases hb : readBlock c idx btr = []
      · rw [if_pos hb]
        omega
      · rw [if_neg hb]
        have hlen : (readBlock c idx btr).length ≤ btr := readBlock_length_le c idx btr
        have hpos : 0 < (readBlock c idx btr).length := List.length_pos.mpr hb
        have := ih (btr - (readBlock c idx btr).length) (by omega) (idx + 1)
        omega

theorem recvLoop_chanServe (s : Byte) (rest : List Byte) (h : rest.length ≤ 254) :
    recvLoop (chanServe (⟨rest.length + 1, by omega⟩ :: s :: rest)) (rest.length + 1) 1 []
      (rest.length + 1) = .ok (s :: rest) := by
  have h1 : readBlock (chanServe (⟨rest.length + 1, by omega⟩ :: s :: rest)) 1
      (rest.length + 1) = s :: rest := by
    simp [readBlock, chanServe]
  rw [recvLoop_unfold, if_neg (Nat.succ_ne_zero _), h1]
  rw [if_neg (by simp)]
  simp only [List.length_cons, List.nil_append, Nat.sub_self]
  rw [recvLoop_unfold, if_pos rfl]

theorem recv_chanServe (s : Byte) (rest : List Byte) (h : rest.length ≤ 254) :
    recv (chanServe (⟨rest.length + 1, by omega⟩ :: s :: rest)) = .ok (s, rest) := by
  have h0 : readBlock (chanServe (⟨rest.length + 1, by omega⟩ :: s :: rest)) 0 1 =
      [⟨rest.length + 1, by omega⟩] := by
    simp [readBlock, chanServe]
  simp only [recv, h0, Fin.val_mk]
  rw [recvLoop_chanServe s rest h]

/-- C7: for every channel that yields zero bytes on the initial one-byte
length read, `_recv` raises `Timeout` and never any other error kind. -/
theorem C7_timeout_on_empty_length_read (c : Chan) (h : c 0 = []) :
    recv c = .error .timeout := by
  have h0 : readBlock c 0 1 = [] := by simp [readBlock, h]
  simp only [recv, h0]

theorem C7_witness :
    emptyChan 0 = [] ∧ recv emptyChan = .error .timeout :=
  ⟨rfl, C7_timeout_on_empty_length_read emptyChan rfl⟩

/-- C5: for every command code and every payload of at most 254 bytes,
decoding the frame `_send` produces — `[len(payload)+1, commandCode] ++
payload` — yields back exactly the original command byte and payload. -/
theorem C5_encode_decode_roundtrip (cmd_code : Byte) (payload : List Byte)
    (h : payload.length ≤ 254) :
    ∃ frame, sendFrame cmd_code payload = .ok frame ∧
      recv (chanServe frame) = .ok (cmd_code, payload) := by
  refine ⟨⟨payload.length + 1, by omega⟩ :: cmd_code :: payload, ?_, ?_⟩
  · simp only [sendFrame]
    rw [dif_pos (by omega)]
  · exact recv_chanServe cmd_code payload h

theorem C5_witness :
    [(1 : Byte), 2, 3].length ≤ 254 ∧
    (∃ frame, sendFrame 7 [1, 2, 3] = .ok frame ∧
      recv (chanServe frame) = .ok ((7 : Byte), [1, 2, 3])) :=
  ⟨by decide, C5_encode_decode_roundtrip 7 [1, 2, 3] (by decide)⟩

/-- C10: the body-accumulation loop of `_recv` terminates for every
channel behaviour — each read attempt returns between 0 and the remaining
byte count, the loop performs at most `btr` read attempts, and whenever
it completes normally the accumulated bytes reach exactly the declared
count. -/
theorem C10_loop_bounds (c : Chan) (idx btr : Nat) :
    readAttempts c idx btr ≤ btr ∧
    (readBlock c idx btr).length ≤ btr ∧
    (∀ (expected : Nat) (acc l : List Byte),
      recvLoop c expected idx acc btr = .ok l → l.length = acc.length + btr) := by
  refine ⟨readAttempts_le c btr idx, readBlock_length_le c idx btr, ?_⟩
  intro expected acc l hl
  exact recvLoop_ok_length c expected btr idx acc l hl

theorem C10_witness :
    readAttempts (chanServe [1, 0]) 1 1 ≤ 1 ∧
    (readBlock (chanServe [1, 0]) 1 1).length ≤ 1 ∧
    [(0 : Byte)].length = ([] : List Byte).length + 1 := by
  obtain ⟨h1, h2, h3⟩ := C10_loop_bounds (chanServe [1, 0]) 1 1
  refine ⟨h1, h2, h3 1 [] [0] ?_⟩
  rw [recvLoop_unfold, if_neg (by decide), if_neg (by decide)]
  show recvLoop (chanServe [1, 0]) 1 2 [0] 0 = .ok [0]
  rw [recvLoop_unfold, if_pos rfl]

/-- C1 (code divergence): the init check of `BusAdapterI2CMaster.__init__`
is `if msg_code != RESPONSE_OK and payload != b''`, so a response of
status ok with the non-empty payload `[0x01]` is accepted (the claim says
it raises `ProtocolError`), and so is a non-ok status with an empty
payload; only a non-ok status combined with a non-empty payload raises
`ProtocolError`. -/
theorem C1_init_check_behavior :
    (BusAdapterI2CMaster.init (chanServe [2, 0, 1])).result = .ok () ∧
    (BusAdapterI2CMaster.init (chanServe [1, 1])).result = .ok () ∧
    (BusAdapterI2CMaster.init (chanServe [2, 1, 1])).result = .error .protocolError := by
  have hr1 : recv (chanServe [2, 0, 1]) = .ok (0, [1]) :=
    recv_chanServe 0 [1] (by decide)
  have hr2 : recv (chanServe [1, 1]) = .ok (1, []) :=
    recv_chanServe 1 [] (by decide)
  have hr3 : recv (chanServe [2, 1, 1]) = .ok (1, [1]) :=
    recv_chanServe 1 [1] (by decide)
  refine ⟨?_, ?_, ?_⟩ <;>
    simp [BusAdapterI2CMaster.init, sendFrame, hr1, hr2, hr3, RESPONSE_OK]

/-- C3: `write` succeeds exactly on status ok with empty response
payload; a non-empty response payload or `bad-parameters` raises
`ProtocolError`; each of the statuses short-write, nack-on-address,
nack-on-data, data-too-long, other-error (with empty payload) raises
`BusError` with its fixed message. -/
theorem C3_write_response_validation (c : Chan) (address status : Byte)
    (payload response : List Byte)
    (hlen : payload.length + 2 ≤ 255)
    (hrecv : recv c = .ok (status, response)) :
    ((status = RESPONSE_OK ∧ response = []) → (BusAdapterI2CMaster.write c address payload).result = .ok ()) ∧
    ((response ≠ [] ∨ status = RESPONSE_BAD_PARAMETERS) →
      (BusAdapterI2CMaster.write c address payload).result = .error .protocolError) ∧
    (response = [] → status = RESPONSE_NACK_ON_ADDRESS →
      (BusAdapterI2CMaster.write c address payload).result = .error (.busError "nack on address")) ∧
    (response = [] → status = RESPONSE_SHORT_WRITE →
      (BusAdapterI2CMaster.write c address payload).result = .error (.busError "short write")) ∧
    (response = [] → status = RESPONSE_NACK_ON_DATA →
      (BusAdapterI2CMaster.write c address payload).result = .error (.busError "nack on data")) ∧
    (response = [] → status = RESPONSE_DATA_TOO_LONG →
      (BusAdapterI2CMaster.write c address payload).result = .error (.busError "data too long for transmit buffer")) ∧
    (response = [] → status = RESPONSE_OTHER_ERROR →
      (BusAdapterI2CMaster.write c address payload).result = .error (.busError "other error")) := by
  have hsf : sendFrame CMD_WRITE (address :: payload) =
      .ok (⟨payload.length + 2, by omega⟩ :: CMD_WRITE :: address :: payload) := by
    simp only [sendFrame]
    rw [dif_pos (by simp only [List.length_cons]; omega)]
    rfl
  have hw : (BusAdapterI2CMaster.write c address payload).result =
      (if response.length ≠ 0 ∨ status = RESPONSE_BAD_PARAMETERS then .error .protocolError
       else if status ≠ RESPONSE_OK then .error (busErrorOfCode status)
       else .ok ()) := by
    simp only [BusAdapterI2CMaster.write, hsf, hrecv]
  refine ⟨?_, ?_, ?_, ?_, ?_, ?_, ?_⟩
  · rintro ⟨hs, hr⟩
    subst hs
    subst hr
    rw [hw]
    decide
  · intro h
    have hcond : response.length ≠ 0 ∨ status = RESPONSE_BAD_PARAMETERS := by
      rcases h with hr | hs
      · exact Or.inl (by simpa [List.length_eq_zero] using hr)
      · exact Or.inr hs
    rw [hw, if_pos hcond]
  · intro hr hs
    subst hr
    subst hs
    rw [hw]
    decide
  · intro hr hs
    subst hr
    subst hs
    rw [hw]
    decide
  · intro hr hs
    subst hr
    subst hs
    rw [hw]
    decide
  · intro hr hs
    subst hr
    subst hs
    rw [hw]
    decide
  · intro hr hs
    subst hr
    subst hs
    rw [hw]
    decide

theorem C3_witness :
    [(1 : Byte), 2].length + 2 ≤ 255 ∧
    recv (chanServe [1, 0]) = .ok ((0 : Byte), []) ∧
    (BusAdapterI2CMaster.write (chanServe [1, 0]) 0x50 [1, 2]).result = .ok () := by
  have hr : recv (chanServe [1, 0]) = .ok ((0 : Byte), []) :=
    recv_chanServe 0 [] (by decide)
  refine ⟨by decide, hr, ?_⟩
  exact (C3_write_response_validation (chanServe [1, 0]) 0x50 0 [1, 2] []
    (by decide) hr).1 ⟨rfl, rfl⟩

/-- C4: on status ok, `read` returns the response payload unchanged when
its length equals `read_size` exactly, and raises `BusError("short read")`
on any length mismatch. -/
theorem C4_read_exact_length (c : Chan) (address read_size : Byte) (response : List Byte)
    (hrecv : recv c = .ok (RESPONSE_OK, response)) :
    (response.length = read_size.val → (BusAdapterI2CMaster.read c address read_size).result = .ok response) ∧
    (response.length ≠ read_size.val →
      (BusAdapterI2CMaster.read c address read_size).result = .error (.busError "short read")) := by
  have hsf : sendFrame CMD_READ [address, read_size] =
      .ok (⟨3, by omega⟩ :: CMD_READ :: [address, read_size]) := by
    simp only [sendFrame]
    rw [dif_pos (by simp)]
    rfl
  have hw : (BusAdapterI2CMaster.read c address read_size).result =
      (if response.length ≠ read_size.val then .error (.busError "short read")
       else .ok response) := by
    simp only [BusAdapterI2CMaster.read, hsf, hrecv]
    rw [if_neg (by decide), if_neg (by simp)]
  constructor
  · intro h
    rw [hw, if_neg (by omega)]
  · intro h
    rw [hw, if_pos h]

theorem C4_witness :
    recv (chanServe [5, 0, 17, 34, 51, 68]) = .ok (RESPONSE_OK, [17, 34, 51, 68]) ∧
    [(17 : Byte), 34, 51, 68].length = (4 : Byte).val ∧
    (BusAdapterI2CMaster.read (chanServe [5, 0, 17, 34, 51, 68]) 0x50 4).result = .ok [17, 34, 51, 68] := by
  have hr : recv (chanServe [5, 0, 17, 34, 51, 68]) = .ok (RESPONSE_OK, [17, 34, 51, 68]) :=
    recv_chanServe 0 [17, 34, 51, 68] (by decide)
  refine ⟨hr, by decide, ?_⟩
  exact (C4_read_exact_length (chanServe [5, 0, 17, 34, 51, 68]) 0x50 4
    [17, 34, 51, 68] hr).1 (by decide)

/-- C6: `transaction` with an empty payload fails fast with a
`ValueError` before any I/O (zero frames written, result independent of
the channel); with a non-empty payload the single request frame sent
carries the address, then the read size, then the write data. -/
theorem C6_transaction_empty_payload_guard (c : Chan) (address read_size : Byte)
    (payload : List Byte) (hlen : payload.length + 3 ≤ 255) :
    BusAdapterI2CMaster.transaction c address [] read_size =
      ⟨[], .error (.valueError "at least one byte of payload is required")⟩ ∧
    (payload ≠ [] → (BusAdapterI2CMaster.transaction c address payload read_size).writes =
      [⟨payload.length + 3, by omega⟩ :: CMD_TRANSACTION :: address :: read_size :: payload]) := by
  constructor
  · simp [BusAdapterI2CMaster.transaction]
  · intro hp
    have h1 : ¬ payload.length < 1 := by
      have := List.length_pos.mpr hp
      omega
    have hsf : sendFrame CMD_TRANSACTION (address :: read_size :: payload) =
        .ok (⟨payload.length + 3, by omega⟩ :: CMD_TRANSACTION :: address :: read_size :: payload) := by
      simp only [sendFrame]
      rw [dif_pos (by simp only [List.length_cons]; omega)]
      rfl
    simp only [BusAdapterI2CMaster.transaction, if_neg h1, hsf]

theorem C6_witness :
    [(0xAA : Byte)].length + 3 ≤ 255 ∧
    BusAdapterI2CMaster.transaction emptyChan 0x50 [] 1 =
      ⟨[], .error (.valueError "at least one byte of payload is required")⟩ ∧
    (BusAdapterI2CMaster.transaction emptyChan 0x50 [0xAA] 1).writes =
      [[4, CMD_TRANSACTION, 0x50, 1, 0xAA]] := by
  obtain ⟨h1, h2⟩ := C6_transaction_empty_payload_guard emptyChan 0x50 1 [0xAA] (by decide)
  refine ⟨by decide, h1, ?_⟩
  rw [h2 (by decide)]
  rfl

/-- C9 (amended, implicit): for a response status outside the fixed
message table and not ok or bad-parameters — `error` (1),
`command-unavailable` (2) or `wrong-command` (3) — `read` and
`transaction` fail with the `KeyError` of the message-table lookup in
`BusError.__init__` whatever the response payload, and `write` does so
when the response payload is empty; a `write` whose response payload is
non-empty instead raises `ProtocolError` (its response-shape check runs
before the status dispatch), so no lookup failure occurs there. -/
theorem C9_unmapped_status_outcomes (c : Chan) (address read_size status : Byte)
    (payload response : List Byte) (hlen : payload.length + 3 ≤ 255) (hpay : payload ≠ [])
    (hst : status = RESPONSE_ERROR ∨ status = RESPONSE_CMD_UNAVAILABLE ∨
      status = RESPONSE_WRONG_COMMAND)
    (hrecv : recv c = .ok (status, response)) :
    (BusAdapterI2CMaster.read c address read_size).result = .error (.keyError status) ∧
    (BusAdapterI2CMaster.transaction c address payload read_size).result =
      .error (.keyError status) ∧
    (response = [] →
      (BusAdapterI2CMaster.write c address payload).result = .error (.keyError status)) ∧
    (response ≠ [] →
      (BusAdapterI2CMaster.write c address payload).result = .error .protocolError) := by
  have hbe : busErrorOfCode status = .keyError status := by
    rcases hst with h | h | h <;> subst h <;> decide
  have h4 : ¬ status = RESPONSE_BAD_PARAMETERS := by
    rcases hst with h | h | h <;> subst h <;> decide
  have h0 : status ≠ RESPONSE_OK := by
    rcases hst with h | h | h <;> subst h <;> decide
  have hsfw : sendFrame CMD_WRITE (address :: payload) =
      .ok (⟨payload.length + 2, by omega⟩ :: CMD_WRITE :: address :: payload) := by
    simp only [sendFrame]
    rw [dif_pos (by simp only [List.length_cons]; omega)]
    rfl
  refine ⟨?_, ?_, ?_, ?_⟩
  · have hsf : sendFrame CMD_READ [address, read_size] =
        .ok (⟨3, by omega⟩ :: CMD_READ :: [address, read_size]) := by
      simp only [sendFrame]
      rw [dif_pos (by simp)]
      rfl
    simp only [BusAdapterI2CMaster.read, hsf, hrecv]
    rw [if_neg h4, if_pos h0, hbe]
  · have h1 : ¬ payload.length < 1 := by
      have := List.length_pos.mpr hpay
      omega
    have hsf : sendFrame CMD_TRANSACTION (address :: read_size :: payload) =
        .ok (⟨payload.length + 3, by omega⟩ :: CMD_TRANSACTION :: address :: read_size :: payload) := by
      simp only [sendFrame]
      rw [dif_pos (by simp only [List.length_cons]; omega)]
      rfl
    simp only [BusAdapterI2CMaster.transaction, if_neg h1, hsf, hrecv]
    rw [if_neg h4, if_pos h0, hbe]
  · intro hr
    subst hr
    simp only [BusAdapterI2CMaster.write, hsfw, hrecv]
    rw [if_neg (by simp [h4]), if_pos h0, hbe]
  · intro hr
    simp only [BusAdapterI2CMaster.write, hsfw, hrecv]
    rw [if_pos (Or.inl (by simpa [List.length_eq_zero] using hr))]

/-- C9 counterexample to the claim as stated: a `write` whose response
has the unmapped status `error` (1) and a non-empty payload raises
`ProtocolError`, not a key-lookup failure — the response-shape check of
`write` fires before the status dispatch ever reaches the message-table
lookup, so the claim's unqualified "every write ... receives a lookup
failure" is false. -/
theorem C9_counterexample :
    (BusAdapterI2CMaster.write (chanServe [2, 1, 255]) 0x50 [0xAA]).result =
      .error .protocolError := by
  have hr : recv (chanServe [2, 1, 255]) = .ok ((1 : Byte), [255]) :=
    recv_chanServe 1 [255] (by decide)
  have hsf : sendFrame CMD_WRITE ((0x50 : Byte) :: [0xAA]) =
      .ok [3, CMD_WRITE, 0x50, 0xAA] := by decide
  simp only [BusAdapterI2CMaster.write, hsf, hr]
  rw [if_pos (Or.inl (by decide))]

theorem C9_witness :
    [(0xAA : Byte)].length + 3 ≤ 255 ∧
    ([(0xAA : Byte)] ≠ []) ∧
    ((2 : Byte) = RESPONSE_ERROR ∨ (2 : Byte) = RESPONSE_CMD_UNAVAILABLE ∨
      (2 : Byte) = RESPONSE_WRONG_COMMAND) ∧
    recv (chanServe [1, 2]) = .ok ((2 : Byte), []) ∧
    recv (chanServe [2, 2, 255]) = .ok ((2 : Byte), [255]) ∧
    (BusAdapterI2CMaster.read (chanServe [1, 2]) 0x50 1).result = .error (.keyError 2) ∧
    (BusAdapterI2CMaster.transaction (chanServe [1, 2]) 0x50 [0xAA] 1).result =
      .error (.keyError 2) ∧
    (BusAdapterI2CMaster.write (chanServe [1, 2]) 0x50 [0xAA]).result = .error (.keyError 2) ∧
    (BusAdapterI2CMaster.write (chanServe [2, 2, 255]) 0x50 [0xAA]).result =
      .error .protocolError := by
  have hr : recv (chanServe [1, 2]) = .ok ((2 : Byte), []) :=
    recv_chanServe 2 [] (by decide)
  have hr2 : recv (chanServe [2, 2, 255]) = .ok ((2 : Byte), [255]) :=
    recv_chanServe 2 [255] (by decide)
  obtain ⟨hread, htr, hw, _⟩ := C9_unmapped_status_outcomes (chanServe [1, 2]) 0x50 1 2
    [0xAA] [] (by decide) (by decide) (by decide) hr
  obtain ⟨_, _, _, hwp⟩ := C9_unmapped_status_outcomes (chanServe [2, 2, 255]) 0x50 1 2
    [0xAA] [255] (by decide) (by decide) (by decide) hr2
  exact ⟨by decide, by decide, by decide, hr, hr2, hread, htr, hw rfl, hwp (by decide)⟩

theorem deliveredBytes_starveChan : deliveredBytes starveChan 1 (5 : Byte).val = 2 := by
  show deliveredBytes starveChan 1 5 = 2
  rw [deliveredBytes_unfold, if_neg (by decide), if_neg (by decide)]
  show 2 + deliveredBytes starveChan 2 3 = 2
  rw [deliveredBytes_unfold, if_neg (by decide), if_pos (by decide)]

/-- C2 (amended): on every channel that delivers a length byte and then
starves before all declared body bytes arrive, `_recv` raises `BusError`
(the source reuses the `BusError` class for this, with a distinctive
message, rather than a distinct ShortResponse kind) whose message carries
the accurate received and expected counts: the actually delivered body
byte count and the declared length byte. -/
theorem C2_short_response_counts (c : Chan) (E : Byte)
    (hE : readBlock c 0 1 = [E])
    (hstarve : deliveredBytes c 1 E.val < E.val) :
    recv c = .error (.busError ("short response; got " ++
      toString (deliveredBytes c 1 E.val) ++ " bytes, expected " ++ toString E.val)) := by
  simp only [recv, hE]
  rw [recvLoop_starve c E.val E.val 1 [] hstarve]
  simp

theorem C2_witness :
    readBlock starveChan 0 1 = [(5 : Byte)] ∧
    deliveredBytes starveChan 1 (5 : Byte).val < (5 : Byte).val ∧
    recv starveChan = .error (.busError "short response; got 2 bytes, expected 5") := by
  have hst : deliveredBytes starveChan 1 (5 : Byte).val < (5 : Byte).val := by
    rw [deliveredBytes_starveChan]
    decide
  refine ⟨rfl, hst, ?_⟩
  have h := C2_short_response_counts starveChan 5 rfl hst
  rw [h, deliveredBytes_starveChan]
  decide

theorem recv_starveChan :
    recv starveChan = .error (.busError "short response; got 2 bytes, expected 5") := by
  have hE : readBlock starveChan 0 1 = [(5 : Byte)] := rfl
  have hst : deliveredBytes starveChan 1 (5 : Byte).val < (5 : Byte).val := by
    rw [deliveredBytes_starveChan]
    decide
  simp only [recv, hE]
  rw [recvLoop_starve starveChan (5 : Byte).val (5 : Byte).val 1 [] hst,
    deliveredBytes_starveChan]
  decide

/-- C2 counterexample to the claim as stated: the starvation failure is
not a failure kind distinct from device-reported bus errors — it is
raised through the very same `BusError` class (`busError` constructor)
that carries device-reported statuses such as nack-on-address; only the
message text differs. -/
theorem C2_counterexample :
    recv starveChan = .error (.busError "short response; got 2 bytes, expected 5") ∧
    busErrorOfCode RESPONSE_NACK_ON_ADDRESS = .busError "nack on address" :=
  ⟨recv_starveChan, by decide⟩

theorem pyLookup_none_iff (v : PyVal) :
    pyLookup PIN_STATUS_TABLE v = none ↔ v ∉ acceptedPinStatus := by
  rcases v with s | b | n
  · by_cases h1 : s = "high"
    · subst h1
      decide
    by_cases h2 : s = "low"
    · subst h2
      decide
    by_cases h3 : s = "toggle"
    · subst h3
      decide
    have h1f : (("high" : String) == s) = false :=
      beq_eq_false_iff_ne.mpr (fun hh => h1 hh.symm)
    have h2f : (("low" : String) == s) = false :=
      beq_eq_false_iff_ne.mpr (fun hh => h2 hh.symm)
    have h3f : (("toggle" : String) == s) = false :=
      beq_eq_false_iff_ne.mpr (fun hh => h3 hh.symm)
    have hnone : pyLookup PIN_STATUS_TABLE (.str s) = none := by
      simp [pyLookup, PIN_STATUS_TABLE, List.find?, pyEq, h1f, h2f, h3f]
    have hmem : PyVal.str s ∉ acceptedPinStatus := by
      simp [acceptedPinStatus, h1, h2, h3]
    exact iff_of_true hnone hmem
  · cases b <;> decide
  · by_cases h16 : n = 16
    · subst h16
      decide
    by_cases h17 : n = 17
    · subst h17
      decide
    by_cases hn1 : n = 1
    · subst hn1
      decide
    by_cases hn0 : n = 0
    · subst hn0
      decide
    have h16f : ((16 : Int) == n) = false :=
      beq_eq_false_iff_ne.mpr (fun hh => h16 hh.symm)
    have h17f : ((17 : Int) == n) = false :=
      beq_eq_false_iff_ne.mpr (fun hh => h17 hh.symm)
    have h1f : ((1 : Int) == n) = false :=
      beq_eq_false_iff_ne.mpr (fun hh => hn1 hh.symm)
    have h0f : ((0 : Int) == n) = false :=
      beq_eq_false_iff_ne.mpr (fun hh => hn0 hh.symm)
    have hnone : pyLookup PIN_STATUS_TABLE (.int n) = none := by
      simp [pyLookup, PIN_STATUS_TABLE, List.find?, pyEq, h16f, h17f, h1f, h0f]
    have hmem : PyVal.int n ∉ acceptedPinStatus := by
      simp [acceptedPinStatus, h16, h17, hn1, hn0]
    exact iff_of_true hnone hmem

/-- C8 (amended): `digital_write` resolves its status argument from the
closed set: the strings high/low/toggle, the booleans (and the integers
1 and 0 that Python treats as equal to them), and the raw device codes
0x10 and 0x11 — but not the raw toggle code 0x12, which is absent from
the table; a resolved code is sent on the wire in the two-byte payload,
and every value outside this set raises `ValueError` before any bytes
are sent. -/
theorem C8_digital_write_status_resolution (c : Chan) (pin_number : Byte) (v : PyVal) :
    (pyLookup PIN_STATUS_TABLE v = none ↔ v ∉ acceptedPinStatus) ∧
    (v ∉ acceptedPinStatus →
      digital_write c pin_number v =
        ⟨[], .error (.valueError ("wrong pin status " ++ pyRepr v))⟩) ∧
    pyLookup PIN_STATUS_TABLE (.str "high") = some PIN_STATUS_HIGH ∧
    pyLookup PIN_STATUS_TABLE (.str "low") = some PIN_STATUS_LOW ∧
    pyLookup PIN_STATUS_TABLE (.str "toggle") = some PIN_STATUS_TOGGLE ∧
    pyLookup PIN_STATUS_TABLE (.bool true) = some PIN_STATUS_HIGH ∧
    pyLookup PIN_STATUS_TABLE (.bool false) = some PIN_STATUS_LOW ∧
    pyLookup PIN_STATUS_TABLE (.int 16) = some PIN_STATUS_HIGH ∧
    pyLookup PIN_STATUS_TABLE (.int 17) = some PIN_STATUS_LOW ∧
    pyLookup PIN_STATUS_TABLE (.int 18) = none ∧
    (∀ code, pyLookup PIN_STATUS_TABLE v = some code →
      (digital_write c pin_number v).writes =
        [[3, CMD_DIGITAL_WRITE, pin_number, code]]) := by
  refine ⟨pyLookup_none_iff v, ?_, by decide, by decide, by decide, by decide, by decide,
    by decide, by decide, by decide, ?_⟩
  · intro hv
    have hn : pyLookup PIN_STATUS_TABLE v = none := (pyLookup_none_iff v).mpr hv
    simp only [digital_write, hn]
  · intro code hc
    have hsf : sendFrame CMD_DIGITAL_WRITE [pin_number, code] =
        .ok (⟨3, by omega⟩ :: CMD_DIGITAL_WRITE :: [pin_number, code]) := by
      simp only [sendFrame]
      rw [dif_pos (by simp)]
      rfl
    simp only [digital_write, hc, hsf]
    rfl

theorem C8_witness :
    (PyVal.str "zap" ∉ acceptedPinStatus) ∧
    digital_write emptyChan 3 (.str "zap") =
      ⟨[], .error (.valueError "wrong pin status 'zap'")⟩ ∧
    (digital_write emptyChan 3 (.str "toggle")).writes =
      [[3, CMD_DIGITAL_WRITE, 3, PIN_STATUS_TOGGLE]] := by
  obtain ⟨_, herr, _, _, _, _, _, _, _, _, _⟩ :=
    C8_digital_write_status_resolution emptyChan 3 (.str "zap")
  obtain ⟨_, _, _, _, ht, _, _, _, _, _, hsendT⟩ :=
    C8_digital_write_status_resolution emptyChan 3 (.str "toggle")
  exact ⟨by decide, herr (by decide), hsendT PIN_STATUS_TOGGLE ht⟩

/-- C8 counterexample to the claim as stated: the raw device code 0x12
(toggle) is not in the resolution dict, so `digital_write(3, 0x12)`
raises `ValueError` with zero bytes sent, where the claim says it
resolves to the toggle status code on the wire. -/
theorem C8_counterexample :
    digital_write emptyChan 3 (.int 18) =
      ⟨[], .error (.valueError "wrong pin status 18")⟩ := by
  decide
